import Mathlib

/-!
Verification development for the GeoPlace generation orchestrator
(FastAPI backend under backend/ of the repository).

The Python modules are shallowly embedded:
  - backend/models/vlm.py    : attribute extraction and prompt building,
  - backend/pipeline.py      : the light pipeline with its artifact cache,
  - backend/main.py          : job runner, registry persistence, paint and
                               tile-serving endpoints, GLB placeholder filter,
  - backend/models/search.py : keyword scoring of search candidates.

Modelling conventions:
  - Python byte strings are lists of naturals, images are lists of RGBA
    quadruples; PNG encoding or decoding is delegated to an image library in
    the source and is kept abstract here (a freshly rendered tile is a
    distinguished constructor carrying its dimensions and fill colour).
  - Python floats are modelled as exact rationals.
  - External services (the VLM HTTP endpoint, Stable Diffusion, TripoSR and
    the hash function) are oracle parameters of the embedded functions.
  - Python dicts are association lists with update-or-append assignment,
    which preserves the insertion order that CPython guarantees.
-/

namespace GeoPlace

/-- Raw byte strings (Python bytes). -/
abbrev Bytes := List Nat

/-- One RGBA pixel. -/
abbrev RGBA := Nat × Nat × Nat × Nat

/-- Association-list lookup, mirroring Python dict indexing. -/
def lookupAssoc {α β : Type} [BEq α] (l : List (α × β)) (k : α) : Option β :=
  (l.find? (fun p => p.1 == k)).map (fun p => p.2)

/-- Association-list assignment with Python dict semantics: an existing key
is updated in place, a new key is appended at the end. -/
def setAssoc {α β : Type} [BEq α] : List (α × β) → α → β → List (α × β)
  | [], k, v => [(k, v)]
  | (k', v') :: t, k, v =>
    if k' == k then (k, v) :: t else (k', v') :: setAssoc t k v

/-- Association-list deletion (Python del d[k]). -/
def removeAssoc {α β : Type} [BEq α] (l : List (α × β)) (k : α) : List (α × β) :=
  l.filter (fun p => p.1 != k)

/-- Contiguous-sublist test (Python "in" on sequences). -/
def listInfixOf {α : Type} [BEq α] : List α → List α → Bool
  | needle, [] => needle.isEmpty
  | needle, a :: t => needle.isPrefixOf (a :: t) || listInfixOf needle t

/-- Substring test on strings (Python "sub in hay"). -/
def strContains (hay sub : String) : Bool :=
  listInfixOf sub.toList hay.toList

/-- Python str.lower (character-wise; the sources only exercise ASCII). -/
def pyLower (s : String) : String :=
  String.mk (s.toList.map Char.toLower)

/-- Python str.strip with no argument: drop whitespace on both ends. -/
def pyStrip (s : String) : String :=
  String.mk
    (((s.toList.dropWhile Char.isWhitespace).reverse.dropWhile
      Char.isWhitespace).reverse)

/-- Python str.startswith. -/
def strStartsWithS (s pre : String) : Bool :=
  pre.toList.isPrefixOf s.toList

/-- Python str.endswith. -/
def strEndsWithS (s suf : String) : Bool :=
  suf.toList.reverse.isPrefixOf s.toList.reverse

/-- Split on a separator character, keeping empty pieces. -/
def splitCharAux (sep : Char) : List Char → List Char → List (List Char)
  | [], acc => [acc.reverse]
  | c :: t, acc =>
    if c == sep then acc.reverse :: splitCharAux sep t []
    else splitCharAux sep t (c :: acc)

namespace Vlm

/-- Python values as they appear in decoded JSON responses
(backend/models/vlm.py works on the result of resp.json()). -/
inductive PyVal where
  | pyNone
  | pyBool (b : Bool)
  | pyInt (n : Int)
  | str (s : String)
  | list (xs : List PyVal)
  | dict (kvs : List (String × PyVal))

/-- Python truthiness of a decoded JSON value. -/
def truthy : PyVal → Bool
  | .pyNone => false
  | .pyBool b => b
  | .pyInt n => n != 0
  | .str s => !s.isEmpty
  | .list xs => !xs.isEmpty
  | .dict kvs => !kvs.isEmpty

/-- Dict field access returning an Option (models d.get(k) being None on a
missing key, with presence distinguished from an explicit null by callers
that use the "k in d" test). -/
def dget (kvs : List (String × PyVal)) (k : String) : Option PyVal :=
  lookupAssoc kvs k

/-- Dict field access with Python default None. -/
def dgetD (kvs : List (String × PyVal)) (k : String) : PyVal :=
  (dget kvs k).getD .pyNone

/-- Python "a or b" over decoded values (first truthy operand). -/
def pyOr (a b : PyVal) : PyVal :=
  if truthy a then a else b

/-- Python str() of a decoded value; only its truthiness and its use as a
raw-text detail matter to the embedded code, so container reprs are
abbreviated (they are non-empty strings, as in Python). -/
def pyToString : PyVal → String
  | .pyNone => "None"
  | .pyBool true => "True"
  | .pyBool false => "False"
  | .pyInt n => toString n
  | .str s => s
  | .list _ => "[...]"
  | .dict _ => "\x7b...\x7d"

/-- The VLMAttributes dataclass of backend/models/vlm.py. The schema the
code expects is string-typed, which is how the fields are modelled. -/
structure VLMAttributes where
  category : String
  colors : List String
  size : String
  orientation : String
  details : List String
deriving DecidableEq

/-- String coercion for a dict field with a default (the dataclass fields
are assigned from resp.get(key, default)). -/
def strFieldD (kvs : List (String × PyVal)) (k : String) (d : String) : String :=
  match dget kvs k with
  | some v => pyToString v
  | none => d

/-- String-list coercion for a dict field with a default. -/
def strListFieldD (kvs : List (String × PyVal)) (k : String) (d : List String) :
    List String :=
  match dget kvs k with
  | some (.list xs) => xs.map pyToString
  | some v => [pyToString v]
  | none => d

/-- Attributes built from a dict carrying the expected schema (the three
identical return sites inside extract_attributes). -/
def attrsFromDict (kvs : List (String × PyVal)) : VLMAttributes :=
  { category := strFieldD kvs "category" "object"
    colors := strListFieldD kvs "colors" ["gray"]
    size := strFieldD kvs "size" "medium"
    orientation := strFieldD kvs "orientation" "front"
    details := strListFieldD kvs "details" [] }

/-- Attributes carrying a raw textual response in details[0], as built by
the in-loop fallback of extract_attributes. -/
def rawTextAttrs (raw : PyVal) : VLMAttributes :=
  { category := "object"
    colors := ["gray"]
    size := "medium"
    orientation := "front"
    details := [pyToString raw] }

/-- The final dummy fallback of extract_attributes (step 3 of the
function, reached when no HTTP attempt returned attributes). -/
def codeFallbackAttrs : VLMAttributes :=
  { category := "object"
    colors := ["red", "white"]
    size := "medium"
    orientation := "front"
    details := ["placeholder"] }

/-- Modelled from the spec: the fallback attribute record as the
specification words it, for comparison with the one the code builds. -/
def specFallbackAttrs : VLMAttributes :=
  { category := "object"
    colors := ["gray"]
    size := "medium"
    orientation := "front"
    details := ["placeholder"] }

/-- Balanced-brace substring extraction: the regular expression
re.search of an opening brace, any characters, a closing brace (greedy)
matches from the first opening brace through the last closing brace that
comes after it, or fails. -/
def braceSubstring (s : String) : Option String :=
  let cs := s.toList
  match cs.findIdx? (fun c => c == '\x7b') with
  | none => none
  | some i =>
    match (cs.enum.filter (fun p => p.2 == '\x7d')).getLast? with
    | none => none
    | some (j, _) =>
      if i < j then some (String.mk ((cs.drop i).take (j - i + 1))) else none

/-- Outcome of the first phase of a per-attempt parse: an early structured
return, a fall-through carrying the chat content value, or a Python
exception (caught by the per-attempt handler, which moves to the next
attempt). -/
inductive ParseFlow where
  | ret (a : VLMAttributes)
  | fallthrough (content : PyVal)
  | exn

/-- Phase 1 of one parse attempt of extract_attributes on a dict response:
the choices branch extracts message content; the else branch returns
directly when both category and colors keys are present. Indexing or
attribute access on ill-typed data raises, which the per-attempt handler
turns into a skipped attempt. -/
def parsePhase1 (d : List (String × PyVal)) : ParseFlow :=
  match dget d "choices" with
  | some (.list (c0 :: _)) =>
    match c0 with
    | .dict c0d =>
      let msg := pyOr (dgetD c0d "message") (dgetD c0d "text")
      let content :=
        match msg with
        | .dict md => dgetD md "content"
        | .str s => PyVal.str s
        | _ => PyVal.pyNone
      .fallthrough content
    | _ => .exn
  | _ =>
    if (dget d "category").isSome && (dget d "colors").isSome then
      .ret (attrsFromDict d)
    else
      .fallthrough .pyNone

/-- Textual content parse of one attempt: direct JSON parse, then on parse
failure the brace-substring retry; a successfully parsed dict is used only
when it carries a category key, otherwise the attempt falls through to the
raw-text fallback. -/
def parseContentAttrs (parse : String → Option PyVal) (s : String) :
    Option VLMAttributes :=
  match parse s with
  | some (.dict j) =>
    if (dget j "category").isSome then some (attrsFromDict j) else none
  | some _ => none
  | none =>
    match braceSubstring s with
    | some sub =>
      match parse sub with
      | some (.dict j) =>
        if (dget j "category").isSome then some (attrsFromDict j) else none
      | _ => none
    | none => none

/-- The raw-text fallback block at the end of the dict branch of one parse
attempt: flatten a likely text field and return it inside the attributes
when it is truthy. -/
def rawTextStep (d : List (String × PyVal)) : Option VLMAttributes :=
  match dget d "choices" with
  | some cv =>
    if truthy cv then
      match cv with
      | .list (c0 :: _) =>
        match c0 with
        | .dict c0d =>
          let raw :=
            match dgetD c0d "message" with
            | .dict md => dgetD md "content"
            | _ => pyOr (dgetD c0d "text") (dgetD c0d "message")
          if truthy raw then some (rawTextAttrs raw) else none
        | _ => none
      | _ => none
    else
      let raw := pyOr (dgetD d "text")
        (pyOr (dgetD d "content") (.str (pyToString (.dict d))))
      if truthy raw then some (rawTextAttrs raw) else none
  | none =>
    let raw := pyOr (dgetD d "text")
      (pyOr (dgetD d "content") (.str (pyToString (.dict d))))
    if truthy raw then some (rawTextAttrs raw) else none

/-- One full parse attempt on a truthy response value; none means the
attempt produced nothing (either no code path returned, or an exception
was caught) and the retry loop continues. -/
def attemptExtract (parse : String → Option PyVal) (v : PyVal) :
    Option VLMAttributes :=
  match v with
  | .dict d =>
    match parsePhase1 d with
    | .ret a => some a
    | .exn => none
    | .fallthrough content =>
      if truthy content then
        match content with
        | .str s =>
          match parseContentAttrs parse s with
          | some a => some a
          | none => rawTextStep d
        | _ => none
      else
        rawTextStep d
  | _ => none

/-- Outcome of one HTTP attempt: the response of the HTTP call (None on
transport failure) filtered by the truthiness guard, then parsed. -/
def attemptOutcome (parse : String → Option PyVal) (r : Option PyVal) :
    Option VLMAttributes :=
  match r with
  | some v => if truthy v then attemptExtract parse v else none
  | none => none

/-- Retry loop of extract_attributes over the per-attempt HTTP responses. -/
def extractLoop (parse : String → Option PyVal) :
    List (Option PyVal) → VLMAttributes
  | [] => codeFallbackAttrs
  | r :: rs =>
    match attemptOutcome parse r with
    | some a => a
    | none => extractLoop parse rs

/-- extract_attributes of backend/models/vlm.py. The configured endpoint is
the Option url argument; the responses list holds the result of each HTTP
attempt (the oracle for the calls issued by the retry loop); parse is the
oracle for json.loads on textual content. With no endpoint the HTTP mode is
skipped entirely and the dummy fallback is returned. -/
def extractAttributes (url : Option String) (responses : List (Option PyVal))
    (parse : String → Option PyVal) : VLMAttributes :=
  match url with
  | some _ => extractLoop parse responses
  | none => codeFallbackAttrs

/-- to_prompt of backend/models/vlm.py. -/
def toPrompt (a : VLMAttributes) : String :=
  "voxel-style " ++ a.category ++ ", " ++ a.size ++ ", primary colors: " ++
    String.intercalate ", " a.colors ++ ", details: " ++
    String.intercalate ", " a.details ++
    ", low-poly, game-friendly, 3D render, front view"

/-- Modelled from the spec: the prompt template as the specification words
it, instantiated with an attribute record, for comparison with to_prompt. -/
def specPromptTemplate (a : VLMAttributes) : String :=
  "voxel-style " ++ a.category ++ ", " ++ a.size ++ " size, primary colors: " ++
    String.intercalate ", " a.colors ++ ", features: " ++
    String.intercalate ", " a.details ++
    ", low-poly, game-friendly, 3D render, " ++ a.orientation ++
    " view, clean background, high quality, detailed"

end Vlm

namespace Pipeline

open Vlm

/-- Noise tokens rejected by the raw-text passthrough check. -/
def noiseTokens : List String :=
  ["abstract", "unknown", "maybe", "not sure", "idk", "unsure"]

/-- The local predicate of run_light_pipeline deciding whether a raw
textual VLM response is substantive enough to be sent to SD verbatim. -/
def looksSubstantiveText (s : String) : Bool :=
  if s.isEmpty then false
  else if s.length < 40 then false
  else if strStartsWithS s "\x7b" && strEndsWithS s "\x7d" then false
  else
    let low := pyLower s
    !(noiseTokens.any (fun bad => strContains low bad))

/-- The raw-text candidate taken from details[0] of the extracted
attributes, stripped of surrounding whitespace. -/
def rawTextCandidate (a : VLMAttributes) : Option String :=
  match a.details with
  | [] => none
  | d0 :: _ => some (pyStrip d0)

/-- Prompt selection of run_light_pipeline: the stripped raw-text
candidate is used when truthy and substantive, otherwise the structured
prompt built by to_prompt. -/
def choosePrompt (a : VLMAttributes) : String :=
  match rawTextCandidate a with
  | some s => if !s.isEmpty && looksSubstantiveText s then s else toPrompt a
  | none => toPrompt a

/-- Meta JSON written into the artifact cache. A success meta carries the
attributes, prompt and output; an error meta carries the error text (the
trace field of the source is folded into it). The error field is an
Option: none models the key being absent from the JSON object. -/
structure Meta where
  hash : String
  attrs : Option VLMAttributes := none
  prompt : String := ""
  quality : String := ""
  output : String := ""
  outputType : String := ""
  error : Option String := none
deriving DecidableEq

/-- Truthiness of meta.get on the error field, as used by the cache
short-circuit of run_light_pipeline. -/
def metaErrorTruthy (m : Meta) : Bool :=
  match m.error with
  | some s => !s.isEmpty
  | none => false

/-- Artifact-cache state touched by run_light_pipeline: the meta store
(cache/pipe, keyed by the input hash), the set of files present in the
asset directory (by name), and the stored SD images. -/
structure PipeState where
  metaStore : List (String × Meta)
  assets : List String
  sdImages : List (String × List RGBA)
deriving DecidableEq

/-- Pipeline stages, recorded in the order they are executed. -/
inductive Stage where
  | understand
  | synthesize
  | reconstruct
deriving DecidableEq

/-- Single-colour sanity check of run_light_pipeline over the SD output:
each channel having exactly one distinct value makes the stage fail. -/
def sdSingleColor (img : List RGBA) : Bool :=
  ((img.map (fun p => p.1)).dedup.length == 1) &&
  ((img.map (fun p => p.2.1)).dedup.length == 1) &&
  ((img.map (fun p => p.2.2.1)).dedup.length == 1)

/-- File extension (suffix without dot) of a produced asset name. -/
def extOf (name : String) : String :=
  let parts := splitCharAux '.' name.toList []
  if 1 < parts.length then String.mk (parts.getLastD []) else ""

/-- Error meta written by the exception handler of run_light_pipeline. -/
def errMeta (h msg : String) : Meta :=
  { hash := h, error := some msg }

instance {ε α : Type} [DecidableEq ε] [DecidableEq α] :
    DecidableEq (Except ε α) := fun a b =>
  match a, b with
  | .ok x, .ok y =>
    if h : x = y then .isTrue (by rw [h])
    else .isFalse (by intro hh; cases hh; exact h rfl)
  | .error x, .error y =>
    if h : x = y then .isTrue (by rw [h])
    else .isFalse (by intro hh; cases hh; exact h rfl)
  | .ok _, .error _ => .isFalse (by intro hh; cases hh)
  | .error _, .ok _ => .isFalse (by intro hh; cases hh)

/-- Result of one pipeline run: the endpoint response (asset name and meta,
or the re-raised error), the updated artifact state, and the list of
stages that were executed (empty on a cache hit). -/
structure PipeResult where
  outcome : Except String (String × Meta)
  state : PipeState
  stagesRun : List Stage
deriving DecidableEq

/-- Body of the try block of run_light_pipeline: Understand, prompt
selection, Synthesize with the sanity check, Reconstruct, then the success
meta write. Each failure writes an error meta and re-raises. -/
def runStages (vlmExtract : Bytes → VLMAttributes)
    (sdGen : String → Except String (List RGBA))
    (gen3d : List RGBA → String → Except String String)
    (st : PipeState) (b : Bytes) (h outName : String) : PipeResult :=
  let attrs := vlmExtract b
  let prompt := choosePrompt attrs
  match sdGen prompt with
  | .error e =>
    { outcome := .error e
      state := { st with metaStore := setAssoc st.metaStore h (errMeta h e) }
      stagesRun := [.understand, .synthesize] }
  | .ok img =>
    let st1 := { st with sdImages := setAssoc st.sdImages h img }
    if sdSingleColor img then
      let msg := "SD output appears to be single-color"
      { outcome := .error msg
        state := { st1 with metaStore := setAssoc st1.metaStore h (errMeta h msg) }
        stagesRun := [.understand, .synthesize] }
    else
      match gen3d img outName with
      | .error e =>
        { outcome := .error e
          state := { st1 with metaStore := setAssoc st1.metaStore h (errMeta h e) }
          stagesRun := [.understand, .synthesize, .reconstruct] }
      | .ok resultName =>
        let meta : Meta :=
          { hash := h, attrs := some attrs, prompt := prompt
            quality := "light", output := resultName
            outputType := extOf resultName }
        { outcome := .ok (resultName, meta)
          state :=
            { st1 with
              assets := resultName :: st1.assets
              metaStore := setAssoc st1.metaStore h meta }
          stagesRun := [.understand, .synthesize, .reconstruct] }

/-- run_light_pipeline of backend/pipeline.py. Oracles: hash models
sha256 hexdigest; vlmExtract the Understand stage (total, as
extract_attributes catches its own failures); sdGen the Synthesize stage;
gen3d the Reconstruct stage, taking the SD image and the requested output
name and returning the name of the installed asset. fmt is the configured
TRIPOSR_OUTPUT_FORMAT. The cache short-circuit answers from the meta store
when the meta for the hash exists, the derived output file exists, and the
meta does not record a truthy error. -/
def runLightPipeline (hash : Bytes → String)
    (vlmExtract : Bytes → VLMAttributes)
    (sdGen : String → Except String (List RGBA))
    (gen3d : List RGBA → String → Except String String)
    (fmt : String) (st : PipeState) (b : Bytes) : PipeResult :=
  let h := hash b
  let outName := h ++ "_light." ++ fmt
  let cached :=
    match lookupAssoc st.metaStore h with
    | some m => if st.assets.contains outName then some m else none
    | none => none
  match cached with
  | some m =>
    if !metaErrorTruthy m then
      { outcome := .ok (outName, m), state := st, stagesRun := [] }
    else
      runStages vlmExtract sdGen gen3d st b h outName
  | none => runStages vlmExtract sdGen gen3d st b h outName

end Pipeline

namespace Main

/-- The configured values of backend/config.py used by main.py, with the
defaults of the Settings class. -/
structure Settings0 where
  tilePx : Nat := 32
  glbSubdir : String := "glb"
deriving DecidableEq

/-- An entry of the object registry (objects.json), as built by
_run_light_job. World coordinates are exact rationals standing for the
Python floats. -/
structure Entry where
  id : String
  x : Rat
  y : Rat
  z : Rat
  rotation : List Int
  scale : Rat
  glbUrl : String
  quality : String
  meta : Pipeline.Meta
deriving DecidableEq

/-- Registry id of the object generated for a tile. -/
def tileId (t : Int × Int) : String :=
  "tile_" ++ toString t.1 ++ "_" ++ toString t.2

/-- The registry entry built by _run_light_job for one tile. -/
def tileEntry (s : Settings0) (t : Int × Int) (glbName : String)
    (meta : Pipeline.Meta) : Entry :=
  { id := tileId t
    x := (t.1 * (s.tilePx : Int) : Int) / (10 : Rat)
    y := 0
    z := (t.2 * (s.tilePx : Int) : Int) / (10 : Rat)
    rotation := [0, 0, 0]
    scale := 1
    glbUrl := "/assets/" ++ s.glbSubdir ++ "/" ++ glbName
    quality := "light"
    meta := meta }

/-- In-memory registry update of _run_light_job: drop every object whose
id equals the new id, then append the new entry. -/
def register (e : Entry) (objects : List Entry) : List Entry :=
  objects.filter (fun o => o.id != e.id) ++ [e]

/-- Observable actions of a light job, in chronological order: registry
persistence (save_objects), and the broadcast events. -/
inductive Action where
  | persist (objs : List Entry)
  | progress (e : Entry)
  | jobError (tile : Int × Int) (msg : String)
  | jobDone
deriving DecidableEq

/-- Outcome of one light job: the in-memory object list, the last
persisted registry contents, the dirty set, the job status, and the trace
of observable actions. -/
structure RunResult where
  objects : List Entry
  registry : List Entry
  modified : List (Int × Int)
  status : String
  trace : List Action
deriving DecidableEq

/-- Per-tile loop of _run_light_job. pipe is the composition of
_cut_tile_image with run_light_pipeline for one tile (an error models the
caught per-tile exception). On a per-tile error the job aborts: the error
is broadcast, the partial registry is persisted, the dirty set is left
untouched and the status is error. After the last tile the full registry
is persisted, the processed tiles are removed from the dirty set, the
status becomes light_ready and job_done is broadcast. -/
def runLightJobLoop (s : Settings0)
    (pipe : Int × Int → Except String (String × Pipeline.Meta))
    (allTiles : List (Int × Int)) (modified0 : List (Int × Int)) :
    List (Int × Int) → List Entry → List Action → RunResult
  | [], objs, acc =>
    { objects := objs
      registry := objs
      modified := modified0.filter (fun t => !allTiles.contains t)
      status := "light_ready"
      trace := acc ++ [.persist objs, .jobDone] }
  | t :: rest, objs, acc =>
    match pipe t with
    | .ok (glbName, meta) =>
      let e := tileEntry s t glbName meta
      runLightJobLoop s pipe allTiles modified0 rest (register e objs)
        (acc ++ [.progress e])
    | .error msg =>
      { objects := objs
        registry := objs
        modified := modified0
        status := "error"
        trace := acc ++ [.jobError t msg, .persist objs] }

/-- _run_light_job of backend/main.py up to the job_done broadcast of the
light stage (the optional refine pass scheduled afterwards is a separate
thread and is outside this model). objects0 is the registry loaded at
entry, modified0 the dirty set at completion time. -/
def runLightJob (s : Settings0)
    (pipe : Int × Int → Except String (String × Pipeline.Meta))
    (tiles : List (Int × Int)) (objects0 : List Entry)
    (modified0 : List (Int × Int)) : RunResult :=
  runLightJobLoop s pipe tiles modified0 tiles objects0 []

/-- Modelled from the spec: the ordering property as the claim words it. A
trace satisfies it when every job_progress event is preceded by a
persistence of a registry containing an entry with the same id. -/
def registryPersistedBeforeProgressB (tr : List Action) : Bool :=
  (List.range tr.length).all fun i =>
    match tr[i]? with
    | some (.progress e) =>
      (List.range i).any fun j =>
        match tr[j]? with
        | some (.persist os) => os.any (fun o => o.id == e.id)
        | _ => false
    | _ => true

/-- File-level operations performed by the registry writer, in order. The
write payload is kept as the object list (JSON serialisation is the
delegated encoding). -/
inductive FsOp where
  | acquireLock
  | releaseLock
  | openTruncate (path : String)
  | writeFile (path : String) (objs : List Entry)
  | renameFile (src dst : String)
deriving DecidableEq

/-- Path of the registry file. -/
def objectsJsonPath : String := "assets/glb/objects.json"

/-- save_objects of backend/main.py as its sequence of file-level
operations: take the process-wide mutex, open the registry file for
writing (truncating it in place), dump the JSON, release. -/
def saveObjectsOps (objs : List Entry) : List FsOp :=
  [ .acquireLock
  , .openTruncate objectsJsonPath
  , .writeFile objectsJsonPath objs
  , .releaseLock ]

/-- Modelled from the spec: a trace writes the registry via a temporary
file followed by a rename when some write targets a temporary path that is
later renamed onto the registry file, and the registry file itself is
never opened for truncation or written directly. -/
def usesTempThenRenameB (ops : List FsOp) : Bool :=
  let directWrite := ops.any fun op =>
    match op with
    | .openTruncate p => p == objectsJsonPath
    | .writeFile p _ => p == objectsJsonPath
    | _ => false
  let tempRename := (List.range ops.length).any fun i =>
    (List.range ops.length).any fun j =>
      decide (i < j) &&
        (match ops[i]?, ops[j]? with
         | some (.writeFile p _), some (.renameFile src dst) =>
           p != objectsJsonPath && src == p && dst == objectsJsonPath
         | _, _ => false)
  !directWrite && tempRename

/-- Lock-depth scan: every open-for-truncation and every write must happen
while the mutex is held. -/
def writesUnderLockGo : List FsOp → Nat → Bool
  | [], _ => true
  | .acquireLock :: t, n => writesUnderLockGo t (n + 1)
  | .releaseLock :: t, n => writesUnderLockGo t (n - 1)
  | .openTruncate _ :: t, n => decide (0 < n) && writesUnderLockGo t n
  | .writeFile _ _ :: t, n => decide (0 < n) && writesUnderLockGo t n
  | .renameFile _ _ :: t, n => decide (0 < n) && writesUnderLockGo t n

/-- A trace keeps all its registry-file mutations under the mutex. -/
def writesUnderLockB (ops : List FsOp) : Bool :=
  writesUnderLockGo ops 0

/-- Size bound of the in-memory tile cache. -/
def MAX_MEMORY_CACHE : Nat := 500

/-- PaintPayload of backend/main.py. -/
structure PaintPayload where
  tileX : Int
  tileY : Int
  pixels : List RGBA
  tileSize : Nat
  userId : String
deriving DecidableEq

/-- File name of the canonical per-tile raster. -/
def tileFileName (x y : Int) : String :=
  "tile_" ++ toString x ++ "_" ++ toString y ++ ".png"

/-- Memory-cache key of a tile. -/
def tileKey (x y : Int) : String :=
  toString x ++ "," ++ toString y

/-- State touched by the paint ingress: the canonical per-tile rasters
under data/tiles, the disk cache under cache/images, the in-memory tile
cache and the dirty set. Rasters are stored as pixel lists; the PNG
encoding is the delegated image-library step. -/
structure CanvasState where
  tileFiles : List (String × List RGBA)
  diskCache : List (String × List RGBA)
  memCache : List (String × List RGBA)
  modified : List (Int × Int)
deriving DecidableEq

/-- Insertion into the bounded memory cache as write_tile_to_canvas does
it: under the bound assign directly, otherwise delete the oldest key first
and then assign. -/
def memInsert (cache : List (String × List RGBA)) (k : String)
    (v : List RGBA) : List (String × List RGBA) :=
  if cache.length < MAX_MEMORY_CACHE then setAssoc cache k v
  else
    match cache with
    | [] => setAssoc [] k v
    | _ :: rest => setAssoc rest k v

/-- Set insertion for the dirty set (Python set.add). -/
def addModified (m : List (Int × Int)) (t : Int × Int) : List (Int × Int) :=
  if m.contains t then m else m ++ [t]

/-- write_tile_to_canvas of backend/main.py: reject a pixel payload whose
length differs from tile_size squared before anything is written;
otherwise write the per-tile raster, write through the disk cache and the
memory cache, and mark the tile modified. -/
def writeTileToCanvas (p : PaintPayload) (st : CanvasState) :
    Except String CanvasState :=
  if p.pixels.length != p.tileSize * p.tileSize then
    .error "pixel length mismatch"
  else
    let name := tileFileName p.tileX p.tileY
    let st1 := { st with tileFiles := setAssoc st.tileFiles name p.pixels }
    let st2 := { st1 with diskCache := setAssoc st1.diskCache name p.pixels }
    let st3 := { st2 with
      memCache := memInsert st2.memCache (tileKey p.tileX p.tileY) p.pixels }
    .ok { st3 with modified := addModified st3.modified (p.tileX, p.tileY) }

/-- Response of the paint endpoint. -/
inductive PaintResponse where
  | ok (modifiedCount : Nat)
  | badRequest (msg : String)
deriving DecidableEq

/-- The paint handler of backend/main.py: on success the tile is marked
modified once more (idempotent on the set) and the count is returned; a
raised ValueError becomes an HTTP 400 response and the state is left as
write_tile_to_canvas left it (unchanged, since the length check precedes
every write). -/
def paint (p : PaintPayload) (st : CanvasState) : PaintResponse × CanvasState :=
  match writeTileToCanvas p st with
  | .ok st1 =>
    let st2 := { st1 with modified := addModified st1.modified (p.tileX, p.tileY) }
    (.ok st2.modified.length, st2)
  | .error e => (.badRequest e, st)

/-- The eight-byte PNG signature checked by the tile-serving endpoint. -/
def pngHeader : List Nat := [0x89, 0x50, 0x4E, 0x47, 0x0D, 0x0A, 0x1A, 0x0A]

/-- Content served for a tile: bytes read from a store, or a freshly
rendered square image of one fill colour (its PNG encoding is the
delegated image-library step). -/
inductive TileContent where
  | stored (b : Bytes)
  | generated (w h : Nat) (color : RGBA)
deriving DecidableEq

/-- State read by the tile-serving endpoint: the in-memory cache, the
canonical per-tile files under data/tiles, and the legacy disk cache. -/
structure ServeState where
  memCache : List (String × TileContent)
  dataTiles : List ((Int × Int) × Bytes)
  diskCache : List ((Int × Int) × Bytes)
deriving DecidableEq

/-- Case 4 of get_tile_image: render the default opaque red tile, cache it
in memory only (never on disk), and serve it. -/
def placeholderResult (s : Settings0) (st : ServeState) (key : String) :
    TileContent × ServeState :=
  (TileContent.generated s.tilePx s.tilePx (255, 0, 0, 255),
    if st.memCache.length < MAX_MEMORY_CACHE then
      { st with
        memCache := setAssoc st.memCache key
          (TileContent.generated s.tilePx s.tilePx (255, 0, 0, 255)) }
    else st)

/-- get_tile_image of backend/main.py: (1) memory cache, (2) canonical
per-tile file (cached back to disk and memory), (3) legacy disk cache
gated by the PNG-signature check (a corrupt file is deleted after the
bounded re-reads and falls through), (4) the freshly rendered default
tile, cached in memory only. -/
def getTileImage (s : Settings0) (st : ServeState) (x y : Int) :
    TileContent × ServeState :=
  match lookupAssoc st.memCache (tileKey x y) with
  | some td => (td, st)
  | none =>
    match lookupAssoc st.dataTiles (x, y) with
    | some b =>
      (.stored b,
        if st.memCache.length < MAX_MEMORY_CACHE then
          { st with
            diskCache := setAssoc st.diskCache (x, y) b
            memCache := setAssoc st.memCache (tileKey x y) (.stored b) }
        else { st with diskCache := setAssoc st.diskCache (x, y) b })
    | none =>
      match lookupAssoc st.diskCache (x, y) with
      | some b =>
        if b.take 8 == pngHeader then
          (.stored b,
            if st.memCache.length < MAX_MEMORY_CACHE then
              { st with memCache := setAssoc st.memCache (tileKey x y) (.stored b) }
            else st)
        else
          placeholderResult s
            { st with diskCache := removeAssoc st.diskCache (x, y) }
            (tileKey x y)
      | none => placeholderResult s st (tileKey x y)

/-- ASCII bytes of a marker string. -/
def asciiBytes (m : String) : Bytes :=
  m.toList.map Char.toNat

/-- The placeholder markers recognised by the GLB middleware and the
/assets/glb endpoint. -/
def glbMarkers : List Bytes :=
  [asciiBytes "GLB_PLACEHOLDER", asciiBytes "GLB_FALLBACK", asciiBytes "DUMMY_GLB"]

/-- A file whose first 64 bytes contain one of the markers. -/
def hasPlaceholderMarker (b : Bytes) : Bool :=
  glbMarkers.any (fun m => listInfixOf m (b.take 64))

/-- Response of the GLB routes. -/
inductive GlbResponse where
  | notFound
  | notFoundPlaceholder
  | fileBytes (b : Bytes)
deriving DecidableEq

/-- get_glb of backend/main.py: a missing file is 404, a file whose
64-byte head carries a placeholder marker is answered 404 as well, and any
other file is served. -/
def getGlb (file : Option Bytes) : GlbResponse :=
  match file with
  | none => .notFound
  | some bytes =>
    if hasPlaceholderMarker bytes then .notFoundPlaceholder
    else .fileBytes bytes

/-- The static mount serving /assets files verbatim. -/
def staticServe (files : String → Option Bytes) (filename : String) :
    GlbResponse :=
  match files filename with
  | some b => .fileBytes b
  | none => .notFound

/-- glb_placeholder_middleware of backend/main.py composed with the static
mount, at the level of the extracted file name of a request below
/assets/glb/: the middleware reads the 64-byte head first and answers 404
on a marker before the static files responder runs. -/
def serveAssetsGlb (files : String → Option Bytes) (filename : String) :
    GlbResponse :=
  match files filename with
  | some bytes =>
    if hasPlaceholderMarker bytes then .notFoundPlaceholder
    else staticServe files filename
  | none => staticServe files filename

end Main

namespace Search

/-- Word characters of the tokenizing regular expression (a split on runs
of non-word characters): ASCII alphanumerics, the underscore, and all
non-ASCII characters (Python treats every unicode letter as a word
character; kanji and kana are the cases exercised here). -/
def isWordChar (c : Char) : Bool :=
  c.isAlphanum || c == '_' || decide (127 < c.toNat)

/-- Accumulator pass of the tokenizer: collect the current run of word
characters (reversed) and emit it when a non-word character or the end of
the input is reached. -/
def splitRunsAux : List Char → List Char → List String
  | [], acc => if acc.isEmpty then [] else [String.mk acc.reverse]
  | c :: t, acc =>
    if isWordChar c then splitRunsAux t (c :: acc)
    else if acc.isEmpty then splitRunsAux t []
    else String.mk acc.reverse :: splitRunsAux t []

/-- Maximal runs of word characters of a character list. -/
def splitRuns (cs : List Char) : List String :=
  splitRunsAux cs []

/-- Tokenization used on both the query and the candidate text: split on
non-word characters and keep tokens longer than one character. -/
def tokens (s : String) : List String :=
  (splitRuns s.toList).filter (fun t => 1 < t.length)

/-- The JP_TO_EN dictionary of backend/models/search.py. -/
def JP_TO_EN : List (String × List String) :=
  [ ("車", ["car", "vehicle", "automobile"])
  , ("家", ["house", "home", "building"])
  , ("木", ["tree"])
  , ("木々", ["trees"])
  , ("人", ["person", "people"])
  , ("川", ["river"])
  , ("海", ["sea", "ocean"]) ]

/-- The EN_TO_JP_SIMPLE dictionary of backend/models/search.py. -/
def EN_TO_JP_SIMPLE : List (String × String) :=
  [ ("car", "車"), ("vehicle", "車"), ("automobile", "車")
  , ("house", "家"), ("home", "家"), ("building", "建物")
  , ("tree", "木"), ("trees", "木々")
  , ("person", "人"), ("people", "人たち")
  , ("river", "川"), ("sea", "海"), ("ocean", "海")
  , ("fruit", "果物"), ("apple", "りんご"), ("banana", "バナナ") ]

/-- Query tokens of _score_with_keywords: tokenize ASCII queries, override
with the JP to EN mapping when the stripped query is a known key, try the
reverse EN mapping for other non-ASCII queries, and fall back to the whole
lowercased query as a single token. -/
def qTokens (query : String) : List String :=
  let q := pyLower query
  let isNonAscii := ((pyStrip query).toList).any (fun c => decide (127 < c.toNat))
  let base := if !isNonAscii then tokens q else []
  let mapped :=
    match lookupAssoc JP_TO_EN (pyStrip query) with
    | some l => l
    | none => []
  let t1 := if !mapped.isEmpty then mapped else base
  let t2 :=
    if isNonAscii && t1.isEmpty then
      let rev := (EN_TO_JP_SIMPLE.filter
        (fun kv => kv.2 == pyStrip query || strContains kv.2 (pyStrip query))).map
        (fun kv => kv.1)
      if !rev.isEmpty then rev else t1
    else t1
  if t2.isEmpty then [q] else t2

/-- The per-candidate score of _score_with_keywords: token-overlap ratio,
the +0.25 boost when the whole lowercased query is a substring of the
candidate text, the raise to at least 0.5 when some query token is a
substring of the candidate text, the times 0.2 penalty for candidate texts
shorter than three characters, and the final clamp at 1. -/
def candScore (q : String) (qtoks : List String) (tRaw : String) : Rat :=
  let t := pyLower tRaw
  let ctoks := tokens t
  let matchCount := (qtoks.filter (fun tok =>
    ctoks.contains tok || ctoks.any (fun ct => strContains ct tok))).length
  let score0 : Rat := (matchCount : Rat) / (max 1 qtoks.length : Nat)
  let score1 := if strContains t q then score0 + (1 / 4 : Rat) else score0
  let score2 :=
    if qtoks.any (fun tok => strContains t tok) then max score1 (1 / 2)
    else score1
  let score3 :=
    if (pyStrip tRaw).length < 3 then score2 * (1 / 5 : Rat) else score2
  min 1 score3

/-- Modelled from the spec: the score formula as the claim words it, with
no bump to 0.5 and the clamp applied before the short-text penalty. -/
def specClaimScore (query : String) (tRaw : String) : Rat :=
  let q := pyLower query
  let qtoks := qTokens query
  let t := pyLower tRaw
  let ctoks := tokens t
  let matchCount := (qtoks.filter (fun tok =>
    ctoks.contains tok || ctoks.any (fun ct => strContains ct tok))).length
  let base : Rat := (matchCount : Rat) / (max 1 qtoks.length : Nat)
  let boosted := min 1 (base + (if strContains t q then (1 / 4 : Rat) else 0))
  if (pyStrip tRaw).length < 3 then boosted * (1 / 5 : Rat) else boosted

/-- A search candidate (the fields scoring reads; coords and timestamps
are carried unchanged by the source and are omitted). -/
structure Candidate where
  id : String
  text : String
deriving DecidableEq

/-- A scored candidate row of the output list. -/
structure ScoredCandidate where
  id : String
  text : String
  score : Rat
deriving DecidableEq

/-- Scored row built for one candidate. -/
def scoredOf (query : String) (c : Candidate) : ScoredCandidate :=
  { id := c.id, text := c.text
    score := candScore (pyLower query) (qTokens query) c.text }

/-- Stable insertion into a list sorted by descending score (list.sort
with reverse=True is a stable descending sort). -/
def insertDesc (x : ScoredCandidate) : List ScoredCandidate → List ScoredCandidate
  | [] => [x]
  | y :: t => if y.score < x.score then x :: y :: t else y :: insertDesc x t

/-- Stable descending sort by score. -/
def sortDesc (l : List ScoredCandidate) : List ScoredCandidate :=
  l.foldr insertDesc []

/-- _score_with_keywords of backend/models/search.py, restricted to the
scoring contract (comment synthesis decorates rows and changes neither
scores nor membership): empty or whitespace queries yield nothing;
otherwise every candidate is scored, rows are ordered by descending score
and rows scoring at most 0.02 are dropped. -/
def scoreWithKeywords (query : String) (cands : List Candidate) :
    List ScoredCandidate :=
  if query.isEmpty || (pyStrip query).isEmpty then []
  else
    (sortDesc (cands.map (scoredOf query))).filter
      (fun c => (1 / 50 : Rat) < c.score)

end Search

open Vlm Pipeline Main Search

/-! Shared helper lemmas about the association-list primitives and the
job loop; they are used by several of the claim theorems below. -/

theorem lookup_setAssoc_self {α β : Type} [BEq α] [LawfulBEq α]
    (l : List (α × β)) (k : α) (v : β) :
    lookupAssoc (setAssoc l k v) k = some v := by
  induction l with
  | nil => simp [setAssoc, lookupAssoc]
  | cons hd t ih =>
    obtain ⟨k', v'⟩ := hd
    by_cases hk : (k' == k) = true
    · simp [setAssoc, hk, lookupAssoc]
    · have hk' : (k' == k) = false := by simpa using hk
      simp only [setAssoc, hk', Bool.false_eq_true, if_false]
      simp only [lookupAssoc, List.find?_cons, hk']
      exact ih

theorem lookup_removeAssoc_self {α β : Type} [BEq α] [LawfulBEq α]
    (l : List (α × β)) (k : α) :
    lookupAssoc (removeAssoc l k) k = none := by
  induction l with
  | nil => simp [removeAssoc, lookupAssoc]
  | cons hd t ih =>
    obtain ⟨k', v'⟩ := hd
    by_cases hk : (k' == k) = true
    · have hk' : (k' != k) = false := by simpa [bne] using hk
      simp only [removeAssoc, List.filter_cons, hk', Bool.false_eq_true, if_false]
      simp only [removeAssoc] at ih
      exact ih
    · have hk' : (k' != k) = true := by simpa [bne] using hk
      have hk'' : (k' == k) = false := by simpa using hk
      simp only [removeAssoc, List.filter_cons, hk', if_true]
      simp only [lookupAssoc, List.find?_cons, hk'']
      simp only [removeAssoc, lookupAssoc] at ih
      exact ih

theorem mem_addModified_self (m : List (Int × Int)) (t : Int × Int) :
    t ∈ addModified m t := by
  unfold addModified
  split
  · next h => exact List.mem_of_elem_eq_true h
  · exact List.mem_append.2 (Or.inr (List.mem_singleton.2 rfl))

theorem mem_addModified_of_mem (m : List (Int × Int)) (a t : Int × Int)
    (h : a ∈ m) : a ∈ addModified m t := by
  unfold addModified
  split
  · exact h
  · exact List.mem_append.2 (Or.inl h)

theorem mem_insertDesc (x a : ScoredCandidate) (l : List ScoredCandidate) :
    a ∈ insertDesc x l ↔ a = x ∨ a ∈ l := by
  induction l with
  | nil => simp [insertDesc]
  | cons y t ih =>
    unfold insertDesc
    split
    · simp [List.mem_cons]
    · rw [List.mem_cons, ih, List.mem_cons]
      tauto

theorem mem_sortDesc (a : ScoredCandidate) (l : List ScoredCandidate) :
    a ∈ sortDesc l ↔ a ∈ l := by
  induction l with
  | nil => simp [sortDesc]
  | cons y t ih =>
    unfold sortDesc at ih ⊢
    rw [List.foldr_cons, mem_insertDesc, ih, List.mem_cons]

theorem candScore_closed_form (q : String) (qtoks : List String)
    (tRaw : String) :
    candScore q qtoks tRaw =
      min 1
        ((if (pyStrip tRaw).length < 3 then (1 / 5 : Rat) else 1) *
          (if qtoks.any (fun tok => strContains (pyLower tRaw) tok) then
            max
              (((qtoks.filter (fun tok =>
                  (tokens (pyLower tRaw)).contains tok ||
                  (tokens (pyLower tRaw)).any
                    (fun ct => strContains ct tok))).length : Rat) /
                  ((max 1 qtoks.length : Nat) : Rat) +
                (if strContains (pyLower tRaw) q then (1 / 4 : Rat) else 0))
              (1 / 2)
          else
            ((qtoks.filter (fun tok =>
                (tokens (pyLower tRaw)).contains tok ||
                (tokens (pyLower tRaw)).any
                  (fun ct => strContains ct tok))).length : Rat) /
                ((max 1 qtoks.length : Nat) : Rat) +
              (if strContains (pyLower tRaw) q then (1 / 4 : Rat) else 0))) := by
  unfold candScore
  by_cases hsub : strContains (pyLower tRaw) q = true <;>
    by_cases hany : (qtoks.any fun tok => strContains (pyLower tRaw) tok) = true <;>
    by_cases hshort : (pyStrip tRaw).length < 3 <;>
    simp [hsub, hany, hshort, mul_comm, add_zero]

theorem countP_register_self (e : Entry) (objs : List Entry) :
    (register e objs).countP (fun o => o.id == e.id) = 1 := by
  unfold register
  rw [List.countP_append]
  have h0 : (objs.filter (fun o => o.id != e.id)).countP
      (fun o => o.id == e.id) = 0 := by
    rw [List.countP_eq_zero]
    intro a ha
    have := (List.mem_filter.1 ha).2
    simpa [bne] using this
  rw [h0]
  simp [List.countP_cons]

theorem countP_register_preserve (e : Entry) (objs : List Entry) (i : String)
    (h : objs.countP (fun o => o.id == i) = 1) :
    (register e objs).countP (fun o => o.id == i) = 1 := by
  by_cases hid : i = e.id
  · subst hid
    exact countP_register_self e objs
  · unfold register
    rw [List.countP_append, List.countP_filter]
    have hcong : objs.countP (fun a => a.id == i && (a.id != e.id)) =
        objs.countP (fun o => o.id == i) := by
      apply List.countP_congr
      intro a _
      constructor
      · intro hb
        exact (Bool.and_elim_left hb)
      · intro hb
        have h1 : a.id = i := by simpa using hb
        have h2 : (a.id != e.id) = true := by
          simp [bne, h1]
          intro hcontra
          exact hid hcontra
        simp [hb, h2]
    rw [hcong, h]
    have : ([e].countP fun o => o.id == i) = 0 := by
      simp [List.countP_cons]
      intro hcontra
      exact hid hcontra.symm
    rw [this]

theorem runLightJobLoop_preserve_count (s : Settings0)
    (pipe : Int × Int → Except String (String × Pipeline.Meta))
    (allTiles modified0 : List (Int × Int)) (i : String) :
    ∀ (tiles : List (Int × Int)) (objs : List Entry) (acc : List Action),
      (runLightJobLoop s pipe allTiles modified0 tiles objs acc).status =
        "light_ready" →
      objs.countP (fun o => o.id == i) = 1 →
      ((runLightJobLoop s pipe allTiles modified0 tiles objs acc).registry).countP
        (fun o => o.id == i) = 1
  | [], objs, acc, _, hc => by
    simpa [runLightJobLoop] using hc
  | t :: rest, objs, acc, hs, hc => by
    rcases hp : pipe t with e | v
    · rw [runLightJobLoop, hp] at hs
      simp at hs
    · rw [runLightJobLoop, hp] at hs ⊢
      exact runLightJobLoop_preserve_count s pipe allTiles modified0 i rest _ _
        hs (countP_register_preserve _ objs i hc)

theorem runLightJobLoop_mem_count (s : Settings0)
    (pipe : Int × Int → Except String (String × Pipeline.Meta))
    (allTiles modified0 : List (Int × Int)) :
    ∀ (tiles : List (Int × Int)) (objs : List Entry) (acc : List Action),
      (runLightJobLoop s pipe allTiles modified0 tiles objs acc).status =
        "light_ready" →
      ∀ t ∈ tiles,
        ((runLightJobLoop s pipe allTiles modified0 tiles objs acc).registry).countP
          (fun o => o.id == tileId t) = 1
  | [], _, _, _, t, ht => absurd ht (List.not_mem_nil t)
  | u :: rest, objs, acc, hs, t, ht => by
    rcases hp : pipe u with e | v
    · rw [runLightJobLoop, hp] at hs
      simp at hs
    · rw [runLightJobLoop, hp] at hs ⊢
      rcases List.mem_cons.1 ht with heq | hmem
      · subst heq
        apply runLightJobLoop_preserve_count s pipe allTiles modified0 _ rest _ _ hs
        have : (tileEntry s t v.1 v.2).id = tileId t := rfl
        rw [← this]
        exact countP_register_self (tileEntry s t v.1 v.2) objs
      · exact runLightJobLoop_mem_count s pipe allTiles modified0 rest _ _ hs t hmem

theorem runLightJobLoop_modified (s : Settings0)
    (pipe : Int × Int → Except String (String × Pipeline.Meta))
    (allTiles modified0 : List (Int × Int)) :
    ∀ (tiles : List (Int × Int)) (objs : List Entry) (acc : List Action),
      (runLightJobLoop s pipe allTiles modified0 tiles objs acc).status =
        "light_ready" →
      (runLightJobLoop s pipe allTiles modified0 tiles objs acc).modified =
        modified0.filter (fun x => !allTiles.contains x)
  | [], objs, acc, _ => rfl
  | u :: rest, objs, acc, hs => by
    rcases hp : pipe u with e | v
    · rw [runLightJobLoop, hp] at hs
      simp at hs
    · rw [runLightJobLoop, hp] at hs ⊢
      exact runLightJobLoop_modified s pipe allTiles modified0 rest _ _ hs

theorem runLightJobLoop_trace (s : Settings0)
    (pipe : Int × Int → Except String (String × Pipeline.Meta))
    (allTiles modified0 : List (Int × Int)) :
    ∀ (tiles : List (Int × Int)) (objs : List Entry) (acc : List Action),
      (runLightJobLoop s pipe allTiles modified0 tiles objs acc).status =
        "light_ready" →
      ∃ mid,
        (runLightJobLoop s pipe allTiles modified0 tiles objs acc).trace =
          (acc ++ mid) ++
            [Action.persist
              (runLightJobLoop s pipe allTiles modified0 tiles objs acc).registry,
             Action.jobDone]
  | [], objs, acc, _ => ⟨[], by simp [runLightJobLoop]⟩
  | u :: rest, objs, acc, hs => by
    rcases hp : pipe u with e | v
    · rw [runLightJobLoop, hp] at hs
      simp at hs
    · rw [runLightJobLoop, hp] at hs ⊢
      rcases runLightJobLoop_trace s pipe allTiles modified0 rest
        (register (tileEntry s u v.1 v.2) objs)
        (acc ++ [Action.progress (tileEntry s u v.1 v.2)]) hs with ⟨mid, hmid⟩
      exact ⟨Action.progress (tileEntry s u v.1 v.2) :: mid, by
        rw [hmid]; simp⟩

/-! Claim theorems. -/

/-- C3 counterexample: the registry writer of the code does not write via
a temporary file followed by a rename; its operation trace on a concrete
object list opens and writes the registry file directly, so the claimed
write-temp-then-rename pattern is absent. -/
theorem save_objects_no_temp_rename_counterexample :
    usesTempThenRenameB (saveObjectsOps []) = false := by decide

/-- C3 amended: every registry write takes the process-wide mutex for the
whole write (all file mutations happen at positive lock depth), but it
writes the JSON directly into objects.json with no temporary file and no
rename, so only readers that take the same mutex are guaranteed a complete
state. -/
theorem save_objects_locked_direct_write (objs : List Entry) :
    writesUnderLockB (saveObjectsOps objs) = true ∧
      usesTempThenRenameB (saveObjectsOps objs) = false := by
  exact ⟨rfl, rfl⟩

/-- C6 counterexample: for the concrete fallback attribute record (which
is not replaced by a raw-text passthrough, its details entry being short),
the prompt handed to the Synthesize stage differs from the template the
claim states, and in particular carries no features label. -/
theorem prompt_template_counterexample :
    choosePrompt codeFallbackAttrs ≠ specPromptTemplate codeFallbackAttrs ∧
      strContains (choosePrompt codeFallbackAttrs) "features:" = false := by
  decide

/-- C6 amended: for every attribute record that is not replaced by the
raw-text passthrough, the prompt handed to the Synthesize stage is
voxel-style category, size, primary colors, a details label with the
record details, then the fixed tail low-poly, game-friendly, 3D render,
front view; the orientation field is not interpolated and there is no
clean background, high quality, detailed tail. -/
theorem prompt_template_amended (a : VLMAttributes)
    (h : Option.all (fun s => s.isEmpty || !looksSubstantiveText s)
      (rawTextCandidate a) = true) :
    choosePrompt a =
      "voxel-style " ++ a.category ++ ", " ++ a.size ++
        ", primary colors: " ++ String.intercalate ", " a.colors ++
        ", details: " ++ String.intercalate ", " a.details ++
        ", low-poly, game-friendly, 3D render, front view" := by
  unfold choosePrompt
  cases hc : rawTextCandidate a with
  | none => rfl
  | some s =>
    rw [hc] at h
    simp only [Option.all] at h
    have hcond : (!s.isEmpty && looksSubstantiveText s) = false := by
      cases he : s.isEmpty with
      | true => simp [he]
      | false =>
        rw [he] at h
        simp at h
        simp [h]
    show (if (!s.isEmpty && looksSubstantiveText s) = true then s else toPrompt a) = _
    rw [hcond]
    simp only [Bool.false_eq_true, if_false]
    rfl

/-- C6 witness: the amended template theorem applied to the concrete
fallback attribute record. -/
theorem prompt_template_amended_witness :
    choosePrompt codeFallbackAttrs =
      "voxel-style " ++ codeFallbackAttrs.category ++ ", " ++
        codeFallbackAttrs.size ++ ", primary colors: " ++
        String.intercalate ", " codeFallbackAttrs.colors ++
        ", details: " ++ String.intercalate ", " codeFallbackAttrs.details ++
        ", low-poly, game-friendly, 3D render, front view" :=
  prompt_template_amended codeFallbackAttrs (by decide)

/-- C7 counterexample: with no VLM endpoint configured the returned record
is not the one the claim states (the colors differ). -/
theorem vlm_fallback_counterexample :
    extractAttributes none [] (fun _ => none) ≠ specFallbackAttrs := by
  decide

/-- C7 amended: whenever no VLM endpoint is configured, or every HTTP
attempt fails or yields nothing parseable, extract_attributes returns
exactly the record with category object, colors red and white, size
medium, orientation front, details placeholder. -/
theorem vlm_fallback_attributes (url : Option String)
    (rs : List (Option PyVal)) (parse : String → Option PyVal)
    (h : url = none ∨ ∀ r ∈ rs, attemptOutcome parse r = none) :
    extractAttributes url rs parse = codeFallbackAttrs := by
  cases hu : url with
  | none => rfl
  | some u =>
    rcases h with h | h
    · exact absurd (hu ▸ h) (by simp)
    · unfold extractAttributes
      induction rs with
      | nil => rfl
      | cons r rest ih =>
        unfold extractLoop
        rw [h r (List.mem_cons_self r rest)]
        exact ih (fun x hx => h x (List.mem_cons_of_mem r hx))

/-- C7 witness: the fallback theorem applied to a concrete endpoint with
one transport failure and one unparseable (falsy) response. -/
theorem vlm_fallback_attributes_witness :
    extractAttributes (some "http://vlm.local") [none, some (PyVal.list [])]
      (fun _ => none) = codeFallbackAttrs :=
  vlm_fallback_attributes (some "http://vlm.local")
    [none, some (PyVal.list [])] (fun _ => none) (Or.inr (by decide))

/-- C10: a GLB asset request whose file exists is answered 404 both by the
middleware composition and by the endpoint when the first 64 bytes carry a
placeholder marker, and is served verbatim otherwise. -/
theorem glb_placeholder_filter (files : String → Option Bytes) (f : String)
    (b : Bytes) (hf : files f = some b) :
    (hasPlaceholderMarker b = true →
      serveAssetsGlb files f = .notFoundPlaceholder ∧
        getGlb (files f) = .notFoundPlaceholder) ∧
    (hasPlaceholderMarker b = false →
      serveAssetsGlb files f = .fileBytes b ∧
        getGlb (files f) = .fileBytes b) := by
  unfold serveAssetsGlb staticServe getGlb
  rw [hf]
  constructor
  · intro hm
    simp [hm]
  · intro hm
    simp [hm]

/-- C5: a paint request whose pixel list length differs from the square of
its tile size is rejected with the invalid-input error and the whole state
(tile files, caches and dirty set) is untouched; a request of the correct
length writes the tile raster and adds the tile to the dirty set. -/
theorem paint_length_validation (p : PaintPayload) (st : CanvasState) :
    (p.pixels.length ≠ p.tileSize * p.tileSize →
      paint p st = (.badRequest "pixel length mismatch", st)) ∧
    (p.pixels.length = p.tileSize * p.tileSize →
      lookupAssoc (paint p st).2.tileFiles (tileFileName p.tileX p.tileY) =
        some p.pixels ∧
      (p.tileX, p.tileY) ∈ (paint p st).2.modified) := by
  constructor
  · intro h
    have hb : (p.pixels.length != p.tileSize * p.tileSize) = true := by
      simpa [bne] using h
    unfold paint writeTileToCanvas
    rw [hb]
    rfl
  · intro h
    have hb : (p.pixels.length != p.tileSize * p.tileSize) = false := by
      simp [bne, h]
    unfold paint writeTileToCanvas
    rw [hb]
    simp only [Bool.false_eq_true, if_false]
    constructor
    · exact lookup_setAssoc_self st.tileFiles (tileFileName p.tileX p.tileY)
        p.pixels
    · exact mem_addModified_of_mem _ _ _ (mem_addModified_self _ _)

/-- C5 witness: the validation theorem applied to a concrete short payload
and to a concrete correct payload. -/
theorem paint_length_validation_witness :
    (paint ⟨0, 0, [(1, 2, 3, 4)], 2, "u"⟩ ⟨[], [], [], []⟩ =
      (.badRequest "pixel length mismatch", ⟨[], [], [], []⟩)) ∧
    (lookupAssoc (paint ⟨0, 0, [(1, 2, 3, 4)], 1, "u"⟩
        ⟨[], [], [], []⟩).2.tileFiles (tileFileName 0 0) =
      some [(1, 2, 3, 4)]) :=
  ⟨(paint_length_validation ⟨0, 0, [(1, 2, 3, 4)], 2, "u"⟩
      ⟨[], [], [], []⟩).1 (by decide),
   ((paint_length_validation ⟨0, 0, [(1, 2, 3, 4)], 1, "u"⟩
      ⟨[], [], [], []⟩).2 (by decide)).1⟩

/-- C8 counterexample: on an empty store the served tile is a freshly
rendered opaque red square, not the fully transparent tile the claim
states. -/
theorem tile_placeholder_counterexample :
    (getTileImage {} { memCache := [], dataTiles := [], diskCache := [] }
        0 0).1 = .generated 32 32 (255, 0, 0, 255) ∧
    (getTileImage {} { memCache := [], dataTiles := [], diskCache := [] }
        0 0).1 ≠ .generated 32 32 (0, 0, 0, 0) := by
  decide

/-- C8 amended: tile serving follows the priority memory cache, canonical
per-tile file, legacy disk cache (gated by the PNG signature), then a
freshly rendered opaque red placeholder; the placeholder is never written
to the disk cache (after a placeholder response the disk cache holds no
entry for the tile). -/
theorem tile_serving_priority (s : Settings0) (st : ServeState) (x y : Int) :
    (∀ td, lookupAssoc st.memCache (tileKey x y) = some td →
      getTileImage s st x y = (td, st)) ∧
    (lookupAssoc st.memCache (tileKey x y) = none →
      ∀ b, lookupAssoc st.dataTiles (x, y) = some b →
        (getTileImage s st x y).1 = .stored b ∧
        lookupAssoc (getTileImage s st x y).2.diskCache (x, y) = some b) ∧
    (lookupAssoc st.memCache (tileKey x y) = none →
      lookupAssoc st.dataTiles (x, y) = none →
      ∀ b, lookupAssoc st.diskCache (x, y) = some b →
        (b.take 8 == pngHeader) = true →
        (getTileImage s st x y).1 = .stored b ∧
        (getTileImage s st x y).2.diskCache = st.diskCache) ∧
    (lookupAssoc st.memCache (tileKey x y) = none →
      lookupAssoc st.dataTiles (x, y) = none →
      (∀ b, lookupAssoc st.diskCache (x, y) = some b →
        (b.take 8 == pngHeader) = false) →
      (getTileImage s st x y).1 =
        .generated s.tilePx s.tilePx (255, 0, 0, 255) ∧
      lookupAssoc (getTileImage s st x y).2.diskCache (x, y) = none) := by
  refine ⟨?_, ?_, ?_, ?_⟩
  · intro td hmem
    simp only [getTileImage, hmem]
  · intro hmem b hdata
    simp only [getTileImage, hmem, hdata]
    refine ⟨by trivial, ?_⟩
    split <;> exact lookup_setAssoc_self st.diskCache (x, y) b
  · intro hmem hdata b hdisk hpng
    simp only [getTileImage, hmem, hdata, hdisk, hpng, if_true]
    refine ⟨by trivial, ?_⟩
    split <;> rfl
  · intro hmem hdata hdisk
    rcases hd : lookupAssoc st.diskCache (x, y) with _ | b
    · simp only [getTileImage, hmem, hdata, hd, placeholderResult]
      refine ⟨by trivial, ?_⟩
      split <;> exact hd
    · simp only [getTileImage, hmem, hdata, hd, hdisk b hd,
        Bool.false_eq_true, if_false, placeholderResult]
      refine ⟨by trivial, ?_⟩
      split <;> exact lookup_removeAssoc_self st.diskCache (x, y)

/-- C8 witness: the priority theorem applied at the memory-cache case and
at the placeholder case on concrete stores. -/
theorem tile_serving_priority_witness :
    (getTileImage {} ⟨[("5,6", .stored [1, 2, 3])], [], []⟩ 5 6 =
      (.stored [1, 2, 3], ⟨[("5,6", .stored [1, 2, 3])], [], []⟩)) ∧
    (lookupAssoc (getTileImage {} ⟨[], [], [((7, 8), [0, 0])]⟩
        7 8).2.diskCache ((7 : Int), (8 : Int)) = none) :=
  ⟨(tile_serving_priority {} ⟨[("5,6", .stored [1, 2, 3])], [], []⟩
      5 6).1 (.stored [1, 2, 3]) (by decide),
   ((tile_serving_priority {} ⟨[], [], [((7, 8), [0, 0])]⟩ 7 8).2.2.2
      (by decide) (by decide) (by decide)).2⟩

/-- C2: with a cached meta for the hash of the input bytes and the derived
asset present, a run returns that same asset path and meta and executes no
stage and changes no state when the meta records no error; a cached meta
recording a (non-empty) error is not a cache hit and the run re-attempts
generation starting with the Understand stage. -/
theorem pipeline_cache_idempotent (hash : Bytes → String)
    (vlmE : Bytes → VLMAttributes)
    (sdGen : String → Except String (List RGBA))
    (gen3d : List RGBA → String → Except String String)
    (fmt : String) (st : PipeState) (b : Bytes) (m : Meta)
    (hm : lookupAssoc st.metaStore (hash b) = some m)
    (ha : st.assets.contains (hash b ++ "_light." ++ fmt) = true) :
    (m.error = none →
      runLightPipeline hash vlmE sdGen gen3d fmt st b =
        { outcome := .ok (hash b ++ "_light." ++ fmt, m), state := st,
          stagesRun := [] }) ∧
    (∀ e, m.error = some e → e ≠ "" →
      Stage.understand ∈
        (runLightPipeline hash vlmE sdGen gen3d fmt st b).stagesRun) := by
  constructor
  · intro he
    have ht : metaErrorTruthy m = false := by
      unfold metaErrorTruthy
      rw [he]
    simp only [runLightPipeline, hm, ha, if_true, ht, Bool.not_false]
  · intro e he hne
    have hie : e.isEmpty = false := by
      cases hh : e.isEmpty with
      | false => rfl
      | true => exact absurd ((String.isEmpty_iff e).1 hh) hne
    have ht : metaErrorTruthy m = true := by
      simp [metaErrorTruthy, he, hie]
    simp only [runLightPipeline, hm, ha, if_true, ht, Bool.not_true,
      Bool.false_eq_true, if_false]
    unfold runStages
    rcases hsd : sdGen (choosePrompt (vlmE b)) with e1 | img
    · simp [hsd]
    · simp only [hsd]
      by_cases hsc : sdSingleColor img = true
      · simp [hsc]
      · simp only [hsc, Bool.false_eq_true, if_false]
        rcases h3 : gen3d img (hash b ++ "_light." ++ fmt) with e2 | rn <;>
          simp [h3]

/-- C2 witness: the cache theorem applied to a concrete cached state with
an error-free meta, and to a concrete state whose meta records an error. -/
theorem pipeline_cache_idempotent_witness :
    (runLightPipeline (fun _ => "h") (fun _ => codeFallbackAttrs)
        (fun _ => .ok [(0, 0, 0, 255), (9, 9, 9, 255)]) (fun _ n => .ok n)
        "glb" ⟨[("h", { hash := "h" })], ["h_light.glb"], []⟩ [1, 2] =
      { outcome := .ok ("h_light.glb", { hash := "h" })
        state := ⟨[("h", { hash := "h" })], ["h_light.glb"], []⟩
        stagesRun := [] }) ∧
    (Stage.understand ∈
      (runLightPipeline (fun _ => "h") (fun _ => codeFallbackAttrs)
        (fun _ => .ok [(0, 0, 0, 255), (9, 9, 9, 255)]) (fun _ n => .ok n)
        "glb" ⟨[("h", { hash := "h", error := some "boom" })],
          ["h_light.glb"], []⟩ [1, 2]).stagesRun) :=
  ⟨(pipeline_cache_idempotent (fun _ => "h") (fun _ => codeFallbackAttrs)
      (fun _ => .ok [(0, 0, 0, 255), (9, 9, 9, 255)]) (fun _ n => .ok n)
      "glb" ⟨[("h", { hash := "h" })], ["h_light.glb"], []⟩ [1, 2]
      { hash := "h" } (by decide) (by decide)).1 rfl,
   (pipeline_cache_idempotent (fun _ => "h") (fun _ => codeFallbackAttrs)
      (fun _ => .ok [(0, 0, 0, 255), (9, 9, 9, 255)]) (fun _ n => .ok n)
      "glb" ⟨[("h", { hash := "h", error := some "boom" })],
        ["h_light.glb"], []⟩ [1, 2]
      { hash := "h", error := some "boom" } (by decide) (by decide)).2
      "boom" rfl (by decide)⟩

/-- C9 counterexample: for the query car dog cat and the candidate text
car, the code gives score one half (the substring bump raises it), while
the formula of the claim gives one third; the returned row carries one
half. -/
theorem keyword_score_counterexample :
    scoreWithKeywords "car dog cat" [{ id := "c1", text := "car" }] =
      [{ id := "c1", text := "car", score := (1 / 2 : Rat) }] ∧
    specClaimScore "car dog cat" "car" = (1 / 3 : Rat) := by
  have hq : qTokens "car dog cat" = ["car", "dog", "cat"] := by decide
  have h1 : ¬ ((pyStrip "car").length < 3) := by decide
  have h2 : (["car", "dog", "cat"].any
      (fun tok => strContains (pyLower "car") tok)) = true := by decide
  have h3 : (["car", "dog", "cat"].filter (fun tok =>
      (tokens (pyLower "car")).contains tok ||
      (tokens (pyLower "car")).any
        (fun ct => strContains ct tok))).length = 1 := by decide
  have h4 : strContains (pyLower "car") (pyLower "car dog cat") = false := by
    decide
  have hsc : scoredOf "car dog cat" { id := "c1", text := "car" } =
      { id := "c1", text := "car", score := (1 / 2 : Rat) } := by
    unfold scoredOf
    rw [candScore_closed_form, hq]
    simp only [ScoredCandidate.mk.injEq, true_and]
    rw [h3, h4]
    simp only [h2, if_true, Bool.false_eq_true, if_false, if_neg h1]
    rw [show (1 ⊔ (["car", "dog", "cat"] : List String).length) = 3 by decide]
    norm_num [min_def, max_def]
  constructor
  · have hg : ("car dog cat".isEmpty ||
        (pyStrip "car dog cat").isEmpty) = false := by decide
    unfold scoreWithKeywords
    rw [hg]
    simp only [Bool.false_eq_true, if_false, List.map_cons, List.map_nil, hsc]
    simp [sortDesc, insertDesc]
    norm_num
  · simp only [specClaimScore, hq]
    rw [h3, h4]
    simp only [Bool.false_eq_true, if_false, if_neg h1]
    rw [show (1 ⊔ (["car", "dog", "cat"] : List String).length) = 3 by decide]
    norm_num [min_def]

/-- C9 amended: for a non-empty query, a row is returned exactly when its
score exceeds 0.02, every returned row is the scored image of an input
candidate, and the score of a candidate is the token-overlap fraction plus
the 0.25 whole-query-substring boost, raised to at least 0.5 when some
query token occurs as a substring of the candidate text, multiplied by 0.2
when the stripped candidate text is shorter than three characters, and
clamped at 1 at the end. -/
theorem keyword_scoring_amended (query : String) (cands : List Candidate)
    (hq : (query.isEmpty || (pyStrip query).isEmpty) = false) :
    (∀ sc ∈ scoreWithKeywords query cands,
      (1 / 50 : Rat) < sc.score ∧ ∃ c ∈ cands, sc = scoredOf query c) ∧
    (∀ c ∈ cands, (1 / 50 : Rat) < (scoredOf query c).score →
      scoredOf query c ∈ scoreWithKeywords query cands) ∧
    (∀ c : Candidate,
      (scoredOf query c).score =
        min 1
          ((if (pyStrip c.text).length < 3 then (1 / 5 : Rat) else 1) *
            (if (qTokens query).any
                (fun tok => strContains (pyLower c.text) tok) then
              max
                ((((qTokens query).filter (fun tok =>
                    (tokens (pyLower c.text)).contains tok ||
                    (tokens (pyLower c.text)).any
                      (fun ct => strContains ct tok))).length : Rat) /
                    ((max 1 (qTokens query).length : Nat) : Rat) +
                  (if strContains (pyLower c.text) (pyLower query) then
                    (1 / 4 : Rat) else 0))
                (1 / 2)
            else
              (((qTokens query).filter (fun tok =>
                  (tokens (pyLower c.text)).contains tok ||
                  (tokens (pyLower c.text)).any
                    (fun ct => strContains ct tok))).length : Rat) /
                  ((max 1 (qTokens query).length : Nat) : Rat) +
                (if strContains (pyLower c.text) (pyLower query) then
                  (1 / 4 : Rat) else 0)))) := by
  refine ⟨?_, ?_, ?_⟩
  · intro sc hsc
    unfold scoreWithKeywords at hsc
    rw [hq] at hsc
    simp only [Bool.false_eq_true, if_false] at hsc
    rcases List.mem_filter.1 hsc with ⟨hmem, hgt⟩
    refine ⟨by exact_mod_cast of_decide_eq_true hgt, ?_⟩
    have := (mem_sortDesc sc (cands.map (scoredOf query))).1 hmem
    rcases List.mem_map.1 this with ⟨c, hc, hceq⟩
    exact ⟨c, hc, hceq.symm⟩
  · intro c hc hgt
    unfold scoreWithKeywords
    rw [hq]
    simp only [Bool.false_eq_true, if_false]
    apply List.mem_filter.2
    refine ⟨?_, by exact decide_eq_true hgt⟩
    exact (mem_sortDesc _ _).2 (List.mem_map.2 ⟨c, hc, rfl⟩)
  · intro c
    unfold scoredOf
    exact candScore_closed_form (pyLower query) (qTokens query) c.text

/-- C9 witness: the amended scoring theorem applied to the concrete query
car dog cat, instantiated at a concrete candidate through its score
formula part. -/
theorem keyword_scoring_amended_witness :
    (scoredOf "car dog cat" { id := "c1", text := "car" }).score =
      min 1
        ((if (pyStrip ({ id := "c1", text := "car" } : Candidate).text).length
            < 3 then (1 / 5 : Rat) else 1) *
          (if (qTokens "car dog cat").any
              (fun tok => strContains
                (pyLower ({ id := "c1", text := "car" } : Candidate).text)
                tok) then
            max
              ((((qTokens "car dog cat").filter (fun tok =>
                  (tokens (pyLower
                    ({ id := "c1", text := "car" } : Candidate).text)).contains
                      tok ||
                  (tokens (pyLower
                    ({ id := "c1", text := "car" } : Candidate).text)).any
                      (fun ct => strContains ct tok))).length : Rat) /
                  ((max 1 (qTokens "car dog cat").length : Nat) : Rat) +
                (if strContains
                    (pyLower ({ id := "c1", text := "car" } : Candidate).text)
                    (pyLower "car dog cat") then (1 / 4 : Rat) else 0))
              (1 / 2)
          else
            (((qTokens "car dog cat").filter (fun tok =>
                (tokens (pyLower
                  ({ id := "c1", text := "car" } : Candidate).text)).contains
                    tok ||
                (tokens (pyLower
                  ({ id := "c1", text := "car" } : Candidate).text)).any
                    (fun ct => strContains ct tok))).length : Rat) /
                ((max 1 (qTokens "car dog cat").length : Nat) : Rat) +
              (if strContains
                  (pyLower ({ id := "c1", text := "car" } : Candidate).text)
                  (pyLower "car dog cat") then (1 / 4 : Rat) else 0))) :=
  (keyword_scoring_amended "car dog cat" [{ id := "c1", text := "car" }]
    (by decide)).2.2 { id := "c1", text := "car" }

/-- C1: whenever a light job ends with status light_ready, the persisted
registry holds exactly one entry whose id is the tile id of each tile of
the job, and no tile of the job remains in the dirty set. -/
theorem light_job_registry_and_dirty (s : Settings0)
    (pipe : Int × Int → Except String (String × Pipeline.Meta))
    (tiles : List (Int × Int)) (objects0 : List Entry)
    (modified0 : List (Int × Int))
    (h : (runLightJob s pipe tiles objects0 modified0).status =
      "light_ready") :
    (∀ t ∈ tiles,
      ((runLightJob s pipe tiles objects0 modified0).registry).countP
        (fun o => o.id == tileId t) = 1) ∧
    (∀ t ∈ tiles,
      t ∉ (runLightJob s pipe tiles objects0 modified0).modified) := by
  constructor
  · intro t ht
    exact runLightJobLoop_mem_count s pipe tiles modified0 tiles objects0 [] h
      t ht
  · intro t ht hmem
    have hmod := runLightJobLoop_modified s pipe tiles modified0 tiles
      objects0 [] h
    unfold runLightJob at hmem
    rw [hmod] at hmem
    rcases List.mem_filter.1 hmem with ⟨_, hp⟩
    simp only [Bool.not_eq_true'] at hp
    have hc : tiles.contains t = true :=
      List.contains_iff_exists_mem_beq.2 ⟨t, ht, by simp⟩
    rw [hc] at hp
    exact absurd hp (by simp)

/-- C1 witness: the completion theorem applied to a job of two tiles with
an always-succeeding pipeline, instantiated at one of them. -/
theorem light_job_registry_and_dirty_witness :
    ((runLightJob {} (fun _ => .ok ("a.glb", { hash := "h" }))
      [((0 : Int), (0 : Int)), (1, 1)] [] [(0, 0), (3, 3)]).registry).countP
        (fun o => o.id == tileId (0, 0)) = 1 ∧
    ((0 : Int), (0 : Int)) ∉ (runLightJob {}
      (fun _ => .ok ("a.glb", { hash := "h" }))
      [((0 : Int), (0 : Int)), (1, 1)] [] [(0, 0), (3, 3)]).modified :=
  have h := light_job_registry_and_dirty {}
    (fun _ => .ok ("a.glb", { hash := "h" }))
    [((0 : Int), (0 : Int)), (1, 1)] [] [(0, 0), (3, 3)] (by decide)
  ⟨h.1 (0, 0) (by decide), h.2 (0, 0) (by decide)⟩

/-- C4 counterexample: in a one-tile job whose pipeline succeeds, the
job_progress event referencing the tile entry is broadcast before any
persistence of a registry containing that entry, so the ordering property
the claim states is false on the emitted trace. -/
theorem progress_before_persist_counterexample :
    registryPersistedBeforeProgressB
      (runLightJob {} (fun _ => .ok ("a.glb", { hash := "h" }))
        [((0 : Int), (0 : Int))] [] []).trace = false := by
  decide

/-- C4 amended: per-tile registry updates are only in memory when the
job_progress events are broadcast; the registry is persisted once after
all tiles succeed, and that persistence (carrying exactly one entry per
job tile) precedes the job_done event, which closes the trace. -/
theorem registry_persist_before_job_done (s : Settings0)
    (pipe : Int × Int → Except String (String × Pipeline.Meta))
    (tiles : List (Int × Int)) (objects0 : List Entry)
    (modified0 : List (Int × Int))
    (h : (runLightJob s pipe tiles objects0 modified0).status =
      "light_ready") :
    ∃ mid,
      (runLightJob s pipe tiles objects0 modified0).trace =
        mid ++ [Action.persist
            (runLightJob s pipe tiles objects0 modified0).registry,
          Action.jobDone] ∧
      ∀ t ∈ tiles,
        ((runLightJob s pipe tiles objects0 modified0).registry).countP
          (fun o => o.id == tileId t) = 1 := by
  rcases runLightJobLoop_trace s pipe tiles modified0 tiles objects0 [] h with
    ⟨mid, hmid⟩
  refine ⟨mid, ?_, ?_⟩
  · simpa using hmid
  · intro t ht
    exact runLightJobLoop_mem_count s pipe tiles modified0 tiles objects0 [] h
      t ht

/-- C4 witness: the amended ordering theorem applied to a concrete
one-tile job with a succeeding pipeline. -/
theorem registry_persist_before_job_done_witness :
    ∃ mid,
      (runLightJob {} (fun _ => .ok ("a.glb", { hash := "h" }))
        [((0 : Int), (0 : Int))] [] []).trace =
        mid ++ [Action.persist
            (runLightJob {} (fun _ => .ok ("a.glb", { hash := "h" }))
              [((0 : Int), (0 : Int))] [] []).registry,
          Action.jobDone] ∧
      ∀ t ∈ [((0 : Int), (0 : Int))],
        ((runLightJob {} (fun _ => .ok ("a.glb", { hash := "h" }))
          [((0 : Int), (0 : Int))] [] []).registry).countP
          (fun o => o.id == tileId t) = 1 :=
  registry_persist_before_job_done {}
    (fun _ => .ok ("a.glb", { hash := "h" })) [((0 : Int), (0 : Int))] [] []
    (by decide)

/-- C10 witness: the filter theorem applied to a store holding one marker
file and one clean file. -/
theorem glb_placeholder_filter_witness :
    (serveAssetsGlb (fun _ => some (asciiBytes "GLB_PLACEHOLDER data"))
        "a.glb" = .notFoundPlaceholder) ∧
    (serveAssetsGlb (fun _ => some (asciiBytes "glTF real mesh")) "b.glb" =
      .fileBytes (asciiBytes "glTF real mesh")) :=
  ⟨((glb_placeholder_filter (fun _ => some (asciiBytes "GLB_PLACEHOLDER data"))
      "a.glb" (asciiBytes "GLB_PLACEHOLDER data") rfl).1 (by decide)).1,
   ((glb_placeholder_filter (fun _ => some (asciiBytes "glTF real mesh"))
      "b.glb" (asciiBytes "glTF real mesh") rfl).2 (by decide)).1⟩

end GeoPlace
